import Mathlib

/-!
A shallow embedding of the bearer-token authentication service
(`main.py`, `app/api/routes/auth.py`, `app/dependencies.py`): the
authenticator `verify_token`, the logging/timing wrapper `log_request`,
the token-masking expressions, the `/login` route and the `/token-info`
route, together with theorems checking the specification's claims.

Python string primitives used by the code (`str.split()`, `str.lower()`,
`token[-4:]`, `str.replace`, `str.startswith`, `str.split(" ")`) are
embedded as executable functions over `List Char` so that every
definition evaluates by kernel reduction.
-/

/-- Python `str.lower()`: lowercase every character. -/
def pyLower (s : String) : String :=
  String.mk (s.data.map Char.toLower)

/-- Helper for `pySplit`: scan the characters, accumulating the current
word in reverse; whitespace ends a word, empty words are dropped
(Python `str.split()` with no separator). -/
def pySplitAux : List Char → List Char → List String
  | [], acc => if acc = [] then [] else [String.mk acc.reverse]
  | c :: cs, acc =>
    if c.isWhitespace then
      if acc = [] then pySplitAux cs []
      else String.mk acc.reverse :: pySplitAux cs []
    else pySplitAux cs (c :: acc)

/-- Python `str.split()` with no argument: split on runs of whitespace,
discarding empty strings. Used by `main.py` line 50. -/
def pySplit (s : String) : List String :=
  pySplitAux s.data []

/-- Python `token[-4:]`: the last `min 4 (length token)` characters.
For a string of length at most 4 this is the whole string. -/
def pySliceLast4 (s : String) : String :=
  String.mk (s.data.drop (s.data.length - 4))

/-- Helper for `pyReplaceBearer`: remove every occurrence of the
7-character pattern `"Bearer "`, scanning left to right. -/
def removeBearerChars : List Char → List Char
  | 'B' :: 'e' :: 'a' :: 'r' :: 'e' :: 'r' :: ' ' :: rest => removeBearerChars rest
  | c :: rest => c :: removeBearerChars rest
  | [] => []

/-- Python `s.replace("Bearer ", "")` as used in `main.py` line 86:
delete every occurrence of the pattern, left to right. -/
def pyReplaceBearer (s : String) : String :=
  String.mk (removeBearerChars s.data)

/-- Python `s.startswith("Bearer ")` as used in `app/dependencies.py`. -/
def pyStartsWithBearer (s : String) : Bool :=
  "Bearer ".data.isPrefixOf s.data

/-- Helper for `pySplitOnSpace`: split on every single space character,
keeping empty pieces (Python `str.split(" ")` with explicit separator). -/
def pySplitOnSpaceAux : List Char → List Char → List String
  | [], acc => [String.mk acc.reverse]
  | c :: cs, acc =>
    if c = ' ' then String.mk acc.reverse :: pySplitOnSpaceAux cs []
    else pySplitOnSpaceAux cs (c :: acc)

/-- Python `s.split(" ")` as used in `app/dependencies.py` line 9. -/
def pySplitOnSpace (s : String) : List String :=
  pySplitOnSpaceAux s.data []

/-- Python dict-style `headers.get(key, default)` over an association
list of header name/value pairs. -/
def headersGet (hs : List (String × String)) (key dflt : String) : String :=
  match hs with
  | [] => dflt
  | (k, v) :: rest => if k = key then v else headersGet rest key dflt

/-- FastAPI `HTTPException(status_code=..., detail=..., headers=...)`. -/
structure HTTPException where
  status_code : Nat
  detail : String
  headers : List (String × String)
deriving DecidableEq

/-- The exception raised by `verify_token` in `main.py` lines 43-47 when
the Authorization header is absent or empty. -/
def missingHeaderExc : HTTPException :=
  ⟨401, "Authorization header missing. Use: \x27Authorization: Bearer your-token\x27",
    [("WWW-Authenticate", "Bearer")]⟩

/-- The exception raised by `verify_token` in `main.py` lines 53-57 when
the header does not have the shape `Bearer <token>`. -/
def malformedHeaderExc : HTTPException :=
  ⟨401, "Invalid authorization header. Format: \x27Bearer <token>\x27",
    [("WWW-Authenticate", "Bearer")]⟩

/-- The exception raised by `verify_token` in `main.py` lines 64-68 when
the candidate token differs from the configured secret. -/
def invalidTokenExc : HTTPException :=
  ⟨401, "Invalid token", [("WWW-Authenticate", "Bearer")]⟩

/-- The exception raised by the JWT-variant `verify_token` in
`app/dependencies.py` line 7 (no extra headers are passed there). -/
def missingOrInvalidExc : HTTPException :=
  ⟨401, "Missing or invalid Authorization header", []⟩

/-- The exception raised by `login` in `app/api/routes/auth.py` line 15. -/
def invalidCredentialsExc : HTTPException :=
  ⟨401, "Invalid credentials", []⟩

/-- `verify_token` from `main.py` lines 35-71, the static-secret
authenticator: reject an absent or empty header, then a header that is
not exactly two whitespace-separated parts whose first part lowercases
to `"bearer"`, then a candidate different from the configured secret;
otherwise return the candidate as the authenticated identity. -/
def verify_token (api_token : String) (authorization : Option String) :
    Except HTTPException String :=
  match authorization with
  | none => Except.error missingHeaderExc
  | some a =>
    if a = "" then Except.error missingHeaderExc
    else
      let parts := pySplit a
      if parts.length ≠ 2 ∨ pyLower (parts.headD "") ≠ "bearer" then
        Except.error malformedHeaderExc
      else
        let token := parts.getD 1 ""
        if token ≠ api_token then Except.error invalidTokenExc
        else Except.ok token

/-- FastAPI dependency composition for a protected endpoint: the handler
body runs only when `verify_token` succeeds, receiving the verified
token; an exception from `verify_token` is returned without invoking
the handler (`main.py` lines 172-215). -/
def runProtected {α : Type} (api_token : String) (authorization : Option String)
    (handler : String → α) : Except HTTPException α :=
  (verify_token api_token authorization).map handler

/-- `verify_token` from `app/dependencies.py` lines 5-10, the JWT
variant, parametric in the `decode_access_token` function it calls:
reject an absent, empty, or non-`"Bearer "`-prefixed header, else decode
the second space-separated piece. -/
def verify_token_jwt (decode : String → Except HTTPException (List (String × String)))
    (authorization : Option String) : Except HTTPException (List (String × String)) :=
  match authorization with
  | none => Except.error missingOrInvalidExc
  | some a =>
    if a = "" ∨ pyStartsWithBearer a = false then Except.error missingOrInvalidExc
    else decode ((pySplitOnSpace a).getD 1 "")

/-- The mask in the authenticator's log lines (`main.py` lines 63 and
70): `f"***{token[-4:] if len(token) > 4 else \x27****\x27}"`. -/
def maskTokenVerify (token : String) : String :=
  "***" ++ (if token.length > 4 then pySliceLast4 token else "****")

/-- The mask in the logging decorator (`main.py` line 87):
`f"***{token[-4:]}" if token and len(token) > 4 else "None"`. -/
def maskTokenIntercept (token : String) : String :=
  if token ≠ "" ∧ token.length > 4 then "***" ++ pySliceLast4 token else "None"

/-- The mask in the protected POST endpoint's response body (`main.py`
line 197): `f"***{token[-4:]}"`, with no length guard. -/
def maskTokenPost (token : String) : String :=
  "***" ++ pySliceLast4 token

/-- The log events emitted by `log_request` (`main.py` lines 90-116):
the request-received line, the success line, and the error line. -/
inductive LogEvent where
  | received (endpoint maskedToken clientIP : String)
  | succeeded (endpoint : String) (duration : Nat) (clientIP : String)
  | failed (endpoint : String) (duration : Nat) (error : String)
deriving DecidableEq

/-- One step in the observable behaviour of the wrapper: either a log
emission or the invocation of the wrapped handler. -/
inductive TraceItem where
  | log (e : LogEvent)
  | invoke
deriving DecidableEq

/-- Whether a log event is the `Received` phase. -/
def isReceivedEvent : LogEvent → Bool
  | LogEvent.received _ _ _ => true
  | _ => false

/-- Whether a log event is terminal (`Succeeded` or `Failed`). -/
def isTerminalEvent : LogEvent → Bool
  | LogEvent.succeeded _ _ _ => true
  | LogEvent.failed _ _ _ => true
  | _ => false

/-- Whether a trace item logs a `Received` event. -/
def isReceivedItem : TraceItem → Bool
  | TraceItem.log e => isReceivedEvent e
  | TraceItem.invoke => false

/-- Whether a trace item logs a terminal event. -/
def isTerminalItem : TraceItem → Bool
  | TraceItem.log e => isTerminalEvent e
  | TraceItem.invoke => false

/-- The connection metadata of a request: `request.client.host`. -/
structure ClientObj where
  host : String
deriving DecidableEq

/-- The parts of a FastAPI `Request` read by `log_request`: the optional
client connection object and the header map. FastAPI passes the
`request` keyword argument to every wrapped endpoint in this app. -/
structure PyRequest where
  client : Option ClientObj
  headers : List (String × String)
deriving DecidableEq

/-- The `log_request` decorator from `main.py` lines 77-119. The wall
clock is embedded as the two timestamps `t0` (before the handler) and
`t1` (after it); the handler's outcome is a result or a raised error.
The returned trace records, in order, the emitted log lines and the
moment the wrapped handler is invoked; the second component is what the
wrapper returns or re-raises to its caller. -/
def log_request {α : Type} (endpoint : String) (request : PyRequest) (t0 t1 : Nat)
    (handler : Except String α) : List TraceItem × Except String α :=
  let client_ip := match request.client with
    | some c => c.host
    | none => "unknown"
  let token := pyReplaceBearer (headersGet request.headers "Authorization" "None")
  let masked_token := maskTokenIntercept token
  let received := TraceItem.log (LogEvent.received endpoint masked_token client_ip)
  match handler with
  | Except.ok result =>
    ([received, TraceItem.invoke,
      TraceItem.log (LogEvent.succeeded endpoint (t1 - t0) client_ip)],
     Except.ok result)
  | Except.error e =>
    ([received, TraceItem.invoke,
      TraceItem.log (LogEvent.failed endpoint (t1 - t0) e)],
     Except.error e)

/-- Serialisation step for the signing MAC: absorb one string into the
running hash. -/
def chainHash (h : Nat) (s : String) : Nat :=
  s.data.foldl (fun a c => a * 131 + c.toNat + 1) h

/-- Modelled from the spec: the signing scheme of
`app/core/security.py` (a file of this repository not present under
`src/`; only its callers are). Spec section 4.2: issuance
"deterministically encodes the claims plus an issuer-chosen signing
scheme". The MAC deterministically digests the key and the claims
mapping. -/
def macSign (key : Nat) (claims : List (String × String)) : Nat :=
  claims.foldl (fun h kv => chainHash (chainHash (h * 2 + 1) kv.1) kv.2) (key * 2 + 1)

/-- Modelled from the spec: a signed token is its claims payload plus a
signature segment over that payload. -/
structure SignedToken where
  payload : List (String × String)
  signature : Nat
deriving DecidableEq

/-- Modelled from the spec: `create_access_token` from
`app/core/security.py` (not present under `src/`), spec section 4.2:
produce the token carrying the claims and their signature. -/
def create_access_token (key : Nat) (claims : List (String × String)) : SignedToken :=
  ⟨claims, macSign key claims⟩

/-- Modelled from the spec: `decode_access_token` from
`app/core/security.py` (not present under `src/`), spec sections 4.1
and 4.2: verify the signature against the key; on success return the
exact claims mapping, on failure reject. -/
def decode_access_token (key : Nat) (tok : SignedToken) :
    Option (List (String × String)) :=
  if tok.signature = macSign key tok.payload then some tok.payload else none

/-- A single-bit flip in a signature segment, at bit position `i`. -/
def flipBit (sig i : Nat) : Nat :=
  sig ^^^ 2 ^ i

/-- The `login` route from `app/api/routes/auth.py` lines 12-18,
parametric in the `create_access_token` function it calls: only the
pair admin/secret is accepted; on success the issued token is returned
with token type `"bearer"`. -/
def login {τ : Type} (create_token : List (String × String) → τ)
    (username password : String) : Except HTTPException (τ × String) :=
  if username ≠ "admin" ∨ password ≠ "secret" then
    Except.error invalidCredentialsExc
  else
    Except.ok (create_token [("sub", username)], "bearer")

/-- The response body of the public `/token-info` endpoint (`main.py`
lines 227-232). -/
structure TokenInfoResponse where
  message : String
  token : String
  warning : String
  usage : String
deriving DecidableEq

/-- `token_info` from `main.py` lines 221-232: a public endpoint whose
body carries the configured secret verbatim. -/
def token_info (api_token : String) : TokenInfoResponse :=
  ⟨"Token configuration info",
   api_token,
   "Remove this endpoint in production!",
   "Add this header to your requests: Authorization: Bearer " ++ api_token⟩

/-! ## Helper lemmas -/

/-- A credential of length at most 4 is returned whole by `token[-4:]`. -/
theorem pySliceLast4_of_le (t : String) (h : t.length ≤ 4) : pySliceLast4 t = t := by
  cases t with
  | mk data =>
    simp only [String.length] at h
    simp only [pySliceLast4, Nat.sub_eq_zero_of_le h, List.drop_zero]

/-- A string of length greater than 4 is nonempty. -/
theorem ne_empty_of_four_lt (t : String) (h : 4 < t.length) : t ≠ "" := by
  intro he
  subst he
  exact absurd h (by decide)

/-- Flipping one bit of a signature always changes it. -/
theorem flipBit_ne (s i : Nat) : flipBit s i ≠ s := by
  intro h
  have h2 : 2 ^ i = 0 := by
    have h3 := congrArg (fun x => s ^^^ x) h
    simp only [flipBit, ← Nat.xor_assoc, Nat.xor_self, Nat.zero_xor] at h3
    exact h3
  exact absurd h2 (by positivity)

/-- The empty header splits into no whitespace-separated parts. -/
theorem pySplit_empty : pySplit "" = [] := rfl

/-! ## Claim theorems -/

/-- C1: for every Authorization header that splits into exactly the two
whitespace-separated parts `"Bearer"` and a candidate `t`, the
authenticator returns the candidate as the authenticated identity when
`t` equals the configured secret, and rejects with the invalid-token
401 otherwise. -/
theorem C1_static_secret_auth (api_token a t : String)
    (h : pySplit a = ["Bearer", t]) :
    verify_token api_token (some a) =
      if t = api_token then Except.ok t else Except.error invalidTokenExc := by
  have ha : a ≠ "" := by
    intro he
    rw [he, pySplit_empty] at h
    exact absurd h (by simp)
  have hcond : ¬(((["Bearer", t] : List String).length ≠ 2) ∨
      pyLower ((["Bearer", t] : List String).headD "") ≠ "bearer") := by
    rintro (h2 | h2)
    · exact h2 rfl
    · have hb : pyLower "Bearer" = "bearer" := by decide
      exact h2 hb
  simp only [verify_token, if_neg ha, h, if_neg hcond]
  by_cases ht : t = api_token
  · simp [ht, List.getD]
  · simp [ht, List.getD]

/-- C1 witness: the configured secret authenticates and a wrong
candidate is rejected, at concrete inputs. -/
theorem C1_static_secret_auth_witness :
    verify_token "test-token-12345" (some "Bearer test-token-12345") =
      Except.ok "test-token-12345" ∧
    verify_token "test-token-12345" (some "Bearer wrong-secret") =
      Except.error invalidTokenExc := by
  constructor
  · have h := C1_static_secret_auth "test-token-12345" "Bearer test-token-12345"
      "test-token-12345" (by decide)
    simpa using h
  · have h := C1_static_secret_auth "test-token-12345" "Bearer wrong-secret"
      "wrong-secret" (by decide)
    simpa using h

/-- C2: an absent or empty Authorization header is rejected with the
missing-header 401 by the static-secret authenticator — independently of
the wrapped handler, which is never invoked — and likewise by the JWT
variant, independently of its decoder. -/
theorem C2_missing_header_rejected (api_token : String) {α : Type}
    (handler : String → α)
    (decode : String → Except HTTPException (List (String × String))) :
    runProtected api_token none handler = Except.error missingHeaderExc ∧
    runProtected api_token (some "") handler = Except.error missingHeaderExc ∧
    missingHeaderExc.status_code = 401 ∧
    verify_token_jwt decode none = Except.error missingOrInvalidExc ∧
    verify_token_jwt decode (some "") = Except.error missingOrInvalidExc ∧
    missingOrInvalidExc.status_code = 401 := by
  refine ⟨rfl, ?_, rfl, rfl, ?_, rfl⟩
  · simp [runProtected, verify_token, Except.map]
  · simp [verify_token_jwt]

/-- C3: a non-empty header is rejected with the malformed-header 401
exactly when it does not split into two whitespace-separated parts whose
first part lowercases to `"bearer"`. -/
theorem C3_malformed_header_iff (api_token a : String) (ha : a ≠ "") :
    (verify_token api_token (some a) = Except.error malformedHeaderExc ↔
      ((pySplit a).length ≠ 2 ∨ pyLower ((pySplit a).headD "") ≠ "bearer")) := by
  simp only [verify_token, if_neg ha]
  by_cases hcond : (pySplit a).length ≠ 2 ∨ pyLower ((pySplit a).headD "") ≠ "bearer"
  · rw [if_pos hcond]
    simpa using hcond
  · rw [if_neg hcond]
    refine iff_of_false ?_ hcond
    by_cases ht : (pySplit a).getD 1 "" ≠ api_token
    · rw [if_pos ht]
      intro hcontra
      simp only [Except.error.injEq] at hcontra
      exact absurd hcontra (by decide)
    · rw [if_neg ht]
      intro hcontra
      exact Except.noConfusion hcontra

/-- C3 witness: the wrong scheme word is rejected as malformed and a
well-formed header is not, at concrete inputs. -/
theorem C3_malformed_header_iff_witness :
    (verify_token "test-token-12345" (some "Token abc123") =
        Except.error malformedHeaderExc ↔
      ((pySplit "Token abc123").length ≠ 2 ∨
        pyLower ((pySplit "Token abc123").headD "") ≠ "bearer")) ∧
    (verify_token "test-token-12345" (some "Bearer abc") =
        Except.error malformedHeaderExc ↔
      ((pySplit "Bearer abc").length ≠ 2 ∨
        pyLower ((pySplit "Bearer abc").headD "") ≠ "bearer")) :=
  ⟨C3_malformed_header_iff "test-token-12345" "Token abc123" (by decide),
   C3_malformed_header_iff "test-token-12345" "Bearer abc" (by decide)⟩

/-- C4 counterexample: the code's missing-header rejection carries the
detail string "Authorization header missing. Use: ..." which is none of
the three body strings the claim lists. -/
theorem C4_detail_strings_counterexample :
    verify_token "test-token-12345" none = Except.error missingHeaderExc ∧
    missingHeaderExc.detail ≠ "Authorization header missing" ∧
    missingHeaderExc.detail ≠ "Invalid authorization header format. Use \x27Bearer <token>\x27" ∧
    missingHeaderExc.detail ≠ "Invalid token" :=
  ⟨rfl, by decide, by decide, by decide⟩

/-- C4 amended: every rejection of the static-secret authenticator is a
401 carrying the header WWW-Authenticate: Bearer, and its detail string
is exactly one of "Authorization header missing. Use: \x27Authorization:
Bearer your-token\x27", "Invalid authorization header. Format: \x27Bearer
<token>\x27", and "Invalid token". -/
theorem C4_rejections_are_401_bearer (api_token : String)
    (authorization : Option String) (e : HTTPException)
    (h : verify_token api_token authorization = Except.error e) :
    e.status_code = 401 ∧ e.headers = [("WWW-Authenticate", "Bearer")] ∧
    (e.detail = "Authorization header missing. Use: \x27Authorization: Bearer your-token\x27" ∨
     e.detail = "Invalid authorization header. Format: \x27Bearer <token>\x27" ∨
     e.detail = "Invalid token") := by
  cases authorization with
  | none =>
    simp only [verify_token, Except.error.injEq] at h
    subst h
    exact ⟨rfl, rfl, Or.inl rfl⟩
  | some a =>
    by_cases h1 : a = ""
    · subst h1
      have h2 : missingHeaderExc = e := by
        have h3 : (Except.error missingHeaderExc : Except HTTPException String) =
            Except.error e := h
        injection h3
      subst h2
      exact ⟨rfl, rfl, Or.inl rfl⟩
    · simp only [verify_token, if_neg h1] at h
      by_cases h2 : (pySplit a).length ≠ 2 ∨ pyLower ((pySplit a).headD "") ≠ "bearer"
      · rw [if_pos h2] at h
        simp only [Except.error.injEq] at h
        subst h
        exact ⟨rfl, rfl, Or.inr (Or.inl rfl)⟩
      · rw [if_neg h2] at h
        by_cases h3 : (pySplit a).getD 1 "" ≠ api_token
        · rw [if_pos h3] at h
          simp only [Except.error.injEq] at h
          subst h
          exact ⟨rfl, rfl, Or.inr (Or.inr rfl)⟩
        · rw [if_neg h3] at h
          exact absurd h (by simp)

/-- C4 witness: the amended statement at the concrete missing-header
rejection. -/
theorem C4_rejections_are_401_bearer_witness :
    missingHeaderExc.status_code = 401 ∧
    missingHeaderExc.headers = [("WWW-Authenticate", "Bearer")] ∧
    (missingHeaderExc.detail = "Authorization header missing. Use: \x27Authorization: Bearer your-token\x27" ∨
     missingHeaderExc.detail = "Invalid authorization header. Format: \x27Bearer <token>\x27" ∨
     missingHeaderExc.detail = "Invalid token") :=
  C4_rejections_are_401_bearer "test-token-12345" none missingHeaderExc rfl

/-- C5 counterexample: the protected POST endpoint's mask applied to the
3-character credential "abc" outputs the placeholder followed by the
entire credential, even though the credential's length is at most 4;
the mask also distinguishes short credentials from each other. -/
theorem C5_short_mask_counterexample :
    ("abc" : String).length ≤ 4 ∧
    maskTokenPost "abc" = "***" ++ "abc" ∧
    maskTokenPost "abc" ≠ maskTokenPost "abcd" :=
  ⟨by decide, by decide, by decide⟩

/-- C5 amended: the authenticator's log mask and the logging decorator's
mask output a constant independent of any credential of length at most
4 and output the placeholder plus exactly the last 4 characters of a
longer credential (two long credentials sharing their last 4 characters
get the same mask); the protected POST endpoint's mask instead always
outputs the placeholder plus the last min 4 (length) characters, so for
a credential of length at most 4 it reveals the whole credential. -/
theorem C5_masking_amended (t u : String) :
    (t.length ≤ 4 →
      maskTokenVerify t = "*******" ∧ maskTokenIntercept t = "None" ∧
      maskTokenPost t = "***" ++ t) ∧
    (t.length > 4 →
      maskTokenVerify t = "***" ++ pySliceLast4 t ∧
      maskTokenIntercept t = "***" ++ pySliceLast4 t ∧
      maskTokenPost t = "***" ++ pySliceLast4 t) ∧
    (t.length > 4 → u.length > 4 → pySliceLast4 t = pySliceLast4 u →
      maskTokenVerify t = maskTokenVerify u ∧
      maskTokenIntercept t = maskTokenIntercept u ∧
      maskTokenPost t = maskTokenPost u) := by
  refine ⟨fun hle => ?_, fun hgt => ?_, fun hgt hgu hlast => ?_⟩
  · have hnot : ¬ t.length > 4 := Nat.not_lt.mpr hle
    refine ⟨?_, ?_, ?_⟩
    · simp [maskTokenVerify, if_neg hnot]
    · simp [maskTokenIntercept, hnot]
    · simp [maskTokenPost, pySliceLast4_of_le t hle]
  · have hne : t ≠ "" := ne_empty_of_four_lt t hgt
    refine ⟨?_, ?_, rfl⟩
    · simp [maskTokenVerify, if_pos hgt]
    · simp [maskTokenIntercept, hne, hgt]
  · have hne : t ≠ "" := ne_empty_of_four_lt t hgt
    have hnu : u ≠ "" := ne_empty_of_four_lt u hgu
    refine ⟨?_, ?_, ?_⟩
    · simp [maskTokenVerify, if_pos hgt, if_pos hgu, hlast]
    · simp [maskTokenIntercept, hne, hnu, hgt, hgu, hlast]
    · simp [maskTokenPost, hlast]

/-- C5 witness: the amended statement evaluated at the short credential
"abc" and at the long credentials "abcde" and "zzbcde", which share
their last 4 characters. -/
theorem C5_masking_amended_witness :
    (maskTokenVerify "abc" = "*******" ∧ maskTokenIntercept "abc" = "None" ∧
      maskTokenPost "abc" = "***" ++ "abc") ∧
    (maskTokenVerify "abcde" = "***" ++ pySliceLast4 "abcde" ∧
      maskTokenIntercept "abcde" = "***" ++ pySliceLast4 "abcde" ∧
      maskTokenPost "abcde" = "***" ++ pySliceLast4 "abcde") ∧
    (maskTokenVerify "abcde" = maskTokenVerify "zzbcde" ∧
      maskTokenIntercept "abcde" = maskTokenIntercept "zzbcde" ∧
      maskTokenPost "abcde" = maskTokenPost "zzbcde") :=
  ⟨(C5_masking_amended "abc" "abc").1 (by decide),
   (C5_masking_amended "abcde" "abcde").2.1 (by decide),
   (C5_masking_amended "abcde" "zzbcde").2.2 (by decide) (by decide) (by decide)⟩

/-- C6: decoding a freshly issued signed token returns exactly the
original claims mapping, and a token whose signature segment has any
single bit flipped fails verification. -/
theorem C6_token_roundtrip_and_tamper (key : Nat)
    (claims : List (String × String)) (i : Nat) :
    decode_access_token key (create_access_token key claims) = some claims ∧
    decode_access_token key ⟨claims, flipBit (macSign key claims) i⟩ = none := by
  constructor
  · simp [decode_access_token, create_access_token]
  · have hne := flipBit_ne (macSign key claims) i
    simp [decode_access_token, hne]

/-- C7: the wrapper's observable trace is exactly one Received log
emission, then the handler invocation, then exactly one terminal log
emission, for every handler outcome. -/
theorem C7_interceptor_ordering {α : Type} (endpoint : String)
    (request : PyRequest) (t0 t1 : Nat) (handler : Except String α) :
    ∃ r tev,
      (log_request endpoint request t0 t1 handler).1 =
        [TraceItem.log r, TraceItem.invoke, TraceItem.log tev] ∧
      isReceivedEvent r = true ∧ isTerminalEvent tev = true ∧
      ((log_request endpoint request t0 t1 handler).1.countP isReceivedItem) = 1 ∧
      ((log_request endpoint request t0 t1 handler).1.countP isTerminalItem) = 1 := by
  cases handler with
  | ok v =>
    refine ⟨_, _, rfl, rfl, rfl, ?_, ?_⟩ <;>
      simp [log_request, List.countP, List.countP.go, isReceivedItem,
        isTerminalItem, isReceivedEvent, isTerminalEvent]
  | error e =>
    refine ⟨_, _, rfl, rfl, rfl, ?_, ?_⟩ <;>
      simp [log_request, List.countP, List.countP.go, isReceivedItem,
        isTerminalItem, isReceivedEvent, isTerminalEvent]

/-- C8: the wrapper returns the handler's outcome unchanged — the same
result on success, the very same error on failure — and on failure the
trace contains the Failed log event describing that error. -/
theorem C8_interceptor_passthrough {α : Type} (endpoint : String)
    (request : PyRequest) (t0 t1 : Nat) (handler : Except String α) :
    (log_request endpoint request t0 t1 handler).2 = handler ∧
    (∀ e, handler = Except.error e →
      TraceItem.log (LogEvent.failed endpoint (t1 - t0) e) ∈
        (log_request endpoint request t0 t1 handler).1) := by
  cases handler with
  | ok v =>
    refine ⟨rfl, fun e he => ?_⟩
    exact Except.noConfusion he
  | error e0 =>
    refine ⟨rfl, fun e he => ?_⟩
    have h2 : e0 = e := by injection he
    subst h2
    simp [log_request]

/-- C8 witness: pass-through and Failed-event emission at a concrete
failing invocation. -/
theorem C8_interceptor_passthrough_witness :
    (log_request "endpoint" ⟨some ⟨"1.2.3.4"⟩, [("Authorization", "Bearer abcdefgh")]⟩
        3 10 (Except.error "boom" : Except String Nat)).2 = Except.error "boom" ∧
    TraceItem.log (LogEvent.failed "endpoint" 7 "boom") ∈
      (log_request "endpoint" ⟨some ⟨"1.2.3.4"⟩, [("Authorization", "Bearer abcdefgh")]⟩
        3 10 (Except.error "boom" : Except String Nat)).1 :=
  ⟨(C8_interceptor_passthrough "endpoint"
      ⟨some ⟨"1.2.3.4"⟩, [("Authorization", "Bearer abcdefgh")]⟩ 3 10
      (Except.error "boom")).1,
   (C8_interceptor_passthrough "endpoint"
      ⟨some ⟨"1.2.3.4"⟩, [("Authorization", "Bearer abcdefgh")]⟩ 3 10
      (Except.error "boom")).2 "boom" rfl⟩

/-- C9: the login route succeeds with the issued token for sub=username
and token type bearer exactly for the pair admin/secret, and rejects
every other pair with the invalid-credentials 401. -/
theorem C9_login_admin_secret {τ : Type}
    (create_token : List (String × String) → τ) (username password : String) :
    (login create_token username password =
        Except.ok (create_token [("sub", username)], "bearer") ↔
      username = "admin" ∧ password = "secret") ∧
    (¬ (username = "admin" ∧ password = "secret") →
      login create_token username password = Except.error invalidCredentialsExc) := by
  constructor
  · constructor
    · intro h
      by_contra hc
      have hcond : username ≠ "admin" ∨ password ≠ "secret" := by tauto
      rw [login, if_pos hcond] at h
      exact Except.noConfusion h
    · rintro ⟨hu, hp⟩
      subst hu
      subst hp
      rfl
  · intro hc
    have hcond : username ≠ "admin" ∨ password ≠ "secret" := by tauto
    rw [login, if_pos hcond]

/-- C9 witness: a wrong pair is rejected and admin/secret is accepted,
at concrete inputs. -/
theorem C9_login_admin_secret_witness :
    login (fun c => c) "guest" "pw" = Except.error invalidCredentialsExc ∧
    login (fun c => c) "admin" "secret" =
      Except.ok ([("sub", "admin")], "bearer") :=
  ⟨(C9_login_admin_secret (fun c => c) "guest" "pw").2 (by decide),
   (C9_login_admin_secret (fun c => c) "admin" "secret").1.mpr ⟨rfl, rfl⟩⟩

/-- C10: the public token-info response carries the configured secret
verbatim in its token field (and in its usage field), so two runs with
different secrets are distinguishable by an unauthenticated caller. -/
theorem C10_token_info_leaks_secret (s1 s2 : String) (h : s1 ≠ s2) :
    (token_info s1).token = s1 ∧
    (token_info s1).usage =
      "Add this header to your requests: Authorization: Bearer " ++ s1 ∧
    token_info s1 ≠ token_info s2 := by
  refine ⟨rfl, rfl, fun he => h ?_⟩
  exact congrArg TokenInfoResponse.token he

/-- C10 witness: two concrete secrets give distinguishable token-info
responses, each containing its secret. -/
theorem C10_token_info_leaks_secret_witness :
    (token_info "token-a").token = "token-a" ∧
    (token_info "token-a").usage =
      "Add this header to your requests: Authorization: Bearer " ++ "token-a" ∧
    token_info "token-a" ≠ token_info "token-b" :=
  C10_token_info_leaks_secret "token-a" "token-b" (by decide)
